import Mathlib

/-!
Shallow embedding of `src/player.rs` (RPlayer): a push-to-talk coordinator
tying a serial-port RTS control line to a rodio audio sink.

Hardware `ioctl` calls (`tiocmget`/`tiocmset`) are modelled as reads/writes
of a natural-number control word; the observable side effects of each
operation (control-line writes, blocking sleeps, sink transitions, fd
release) are collected into an explicit trace so that ordering claims can
be stated.  Fallible external steps (device enumeration, stream/sink
creation, file open/decode, fd close) are modelled by boolean success
parameters, matching the `Result`-returning collaborators in the source.
-/

namespace RPlayer

/-- `const IOCTL_TIOCMGET:i32 = 0x5415;` (kept for fidelity; the ioctl
request numbers do not affect the modelled semantics). -/
def IOCTL_TIOCMGET : Nat := 0x5415

/-- `const IOCTL_TIOCMSET:i32 = 0x5418;` -/
def IOCTL_TIOCMSET : Nat := 0x5418

/-- `const TIOCM_RTS_FLAG:i32 = 0x004;` — the transmit-enable (RTS) bit. -/
def TIOCM_RTS_FLAG : Nat := 0x004

/-- Error kinds surfaced by the player, one per `Err` return site in
`player.rs` (the `anyhow!`/`.context` messages). -/
inductive PlayerError where
  /-- "Failed to enumerate output devices" -/
  | enumerateFailed
  /-- "Failed to find audio device '{name}'" — carries the requested name. -/
  | deviceNotFound (name : String)
  /-- "Failed to create Sink from output device" -/
  | streamInit
  /-- "Failed to open TTY device" -/
  | deviceOpen
  /-- "Failed to open audio file" -/
  | fileOpen
  /-- "Failed to create decoder for audio file" -/
  | decode
  /-- "Cannot play because streaming is already in progress" -/
  | alreadyTransmitting
  /-- "Cannot play because streaming is already paused" (the `pause` error) -/
  | alreadyPaused
deriving DecidableEq, Repr

/-- Observable side effects of player operations, in the order the source
performs them. `lineWrite w` is the `tiocmset` writing control word `w`;
`sleepMs n` is `thread::sleep(Duration::from_millis(n))`; `fdClose` is the
`close(2)` in the `Drop` impl. -/
inductive Effect where
  | lineWrite (w : Nat)
  | sleepMs (ms : Nat)
  | sinkPlay
  | sinkPause
  | sinkAppend
  | fdClose
deriving DecidableEq, Repr

/-- The mutable state a `Player` can observe/affect: the hardware control
word behind `tty_fd` and the rodio sink's pause flag and queue length. -/
structure PlayerState where
  controlBits : Nat
  sinkPaused : Bool
  sinkQueue : Nat
deriving DecidableEq, Repr

/-- Outcome of a `Result<()>`-returning player method. -/
inductive CallResult where
  | ok
  | error (e : PlayerError)
deriving DecidableEq, Repr

/-- `Player::rts_is_enabled`: read the control word and test
`(control_bits & TIOCM_RTS_FLAG) != 0`. -/
def rts_is_enabled (s : PlayerState) : Bool :=
  decide (s.controlBits &&& TIOCM_RTS_FLAG ≠ 0)

/-- The pure word transformation of `Player::toggle_rts`:
`control_bits ^= TIOCM_RTS_FLAG`. -/
def toggle_rts_bits (w : Nat) : Nat :=
  w ^^^ TIOCM_RTS_FLAG

/-- `Player::toggle_rts`: read the control word, flip the RTS bit, write it
back. -/
def toggle_rts (s : PlayerState) : PlayerState :=
  { s with controlBits := toggle_rts_bits s.controlBits }

/-- `Player::play`: fail with the `AlreadyTransmitting` error when
`rts_is_enabled() || !sink.is_paused()`; otherwise toggle RTS on, sleep
250 ms, then resume the sink.  The returned state is the caller's state
after the call (unchanged on error), and the trace lists the performed
side effects in order. -/
def play (s : PlayerState) : CallResult × PlayerState × List Effect :=
  if rts_is_enabled s || !s.sinkPaused then
    (.error .alreadyTransmitting, s, [])
  else
    (.ok, { toggle_rts s with sinkPaused := false },
      [.lineWrite (toggle_rts_bits s.controlBits), .sleepMs 250, .sinkPlay])

/-- `Player::pause`: fail with the `AlreadyPaused` error when
`!rts_is_enabled() || sink.is_paused()`; otherwise pause the sink, sleep
250 ms, then toggle RTS off. -/
def pause (s : PlayerState) : CallResult × PlayerState × List Effect :=
  if !rts_is_enabled s || s.sinkPaused then
    (.error .alreadyPaused, s, [])
  else
    (.ok, { toggle_rts s with sinkPaused := true },
      [.sinkPause, .sleepMs 250, .lineWrite (toggle_rts_bits s.controlBits)])

/-- `Player::queue_audio`: open the file and build a decoder (each step
fallible, modelled by the boolean success parameters, failing before any
mutation), then `sink.append(source); sink.pause();`. -/
def queue_audio (fileOk decodeOk : Bool) (s : PlayerState) :
    CallResult × PlayerState × List Effect :=
  if !fileOk then (.error .fileOpen, s, [])
  else if !decodeOk then (.error .decode, s, [])
  else (.ok, { s with sinkQueue := s.sinkQueue + 1, sinkPaused := true },
    [.sinkAppend, .sinkPause])

/-- One enumerated audio output device, as `for_devices` observes it:
`name` is `dev.name()` (`none` when that call returns `Err`), and `openOk`
records whether `OutputStream::try_from_device(&dev)` would succeed. -/
structure AudioDevice where
  name : Option String
  openOk : Bool
deriving DecidableEq, Repr

/-- The device-selection loop in `for_devices`: iterate over the
enumerated devices, skipping those whose `name()` errs, and overwrite
`output_dev` on every exact name match (no `break`, so the last match
wins). -/
def findDevice (devs : List AudioDevice) (target : String) :
    Option AudioDevice :=
  devs.foldl (fun acc dev =>
    match dev.name with
    | some n => if n = target then some dev else acc
    | none => acc) none

/-- Result of `Player::for_devices`: an `anyhow::Result<Player>` whose
construction can also abort the process, because the source calls
`.unwrap()` on `OutputStream::try_from_device`. `ok` carries the initial
player state and the trace of hardware side effects performed during
construction. -/
inductive InitOutcome where
  | ok (s : PlayerState) (tr : List Effect)
  | error (e : PlayerError)
  | panic
deriving DecidableEq, Repr

/-- Modelled from the spec: the pause state of a freshly created sink is
decided by the rodio `Sink` library code, which is not part of this
repository's sources.  Per the spec (§4.3 state machine, "Initial: Idle")
a freshly constructed Coordinator is in the Idle state, whose
`sinkPlaying` component is `false`, i.e. the fresh sink reports paused. -/
def initialSinkPaused : Bool := true

/-- `Player::for_devices(tty_path, audio_device_name)`, step by step from
the source: enumerate output devices (fallible, `enumOk`); select the
device by exact name match; `.unwrap()` the stream creation (panic on
failure, `dev.openOk`); create the sink (fallible, `sinkOk`); open the
TTY (fallible, `ttyOk`; its control word currently reads `w0`); then the
safety step `if player.rts_is_enabled()? { player.toggle_rts()? }`. -/
def for_devices (enumOk : Bool) (devs : List AudioDevice)
    (sinkOk ttyOk : Bool) (w0 : Nat) (audio_device_name : String) :
    InitOutcome :=
  if !enumOk then .error .enumerateFailed
  else
    match findDevice devs audio_device_name with
    | none => .error (.deviceNotFound audio_device_name)
    | some dev =>
      if !dev.openOk then .panic
      else if !sinkOk then .error .streamInit
      else if !ttyOk then .error .deviceOpen
      else
        let s0 : PlayerState :=
          { controlBits := w0, sinkPaused := initialSinkPaused,
            sinkQueue := 0 }
        if rts_is_enabled s0 then
          .ok (toggle_rts s0) [.lineWrite (toggle_rts_bits w0)]
        else
          .ok s0 []

/-- `impl Drop for Player`: issue exactly one `close(self.tty_fd)`;
`.expect(...)` panics when it fails.  Returns the effect trace and whether
the drop panicked. -/
def drop_player (closeOk : Bool) : List Effect × Bool :=
  ([.fdClose], !closeOk)

/-- A `play()` or `pause()` call, for claims quantifying over call
sequences with no interleaved `queue_audio`. -/
inductive Call where
  | play
  | pause
deriving DecidableEq, Repr

/-- Dispatch one `play`/`pause` call. -/
def runCall : Call → PlayerState → CallResult × PlayerState × List Effect
  | .play, s => play s
  | .pause, s => pause s

/-- Run a sequence of `play`/`pause` calls, returning the final state
(each call's state threads into the next, whether it succeeded or
errored). -/
def runCalls : List Call → PlayerState → PlayerState
  | [], s => s
  | c :: cs, s => runCalls cs (runCall c s).2.1

/-- Any public call a live `Player` can receive between construction and
drop (the `queue` constructor carries the success of its file-open and
decode steps). -/
inductive SessionCall where
  | play
  | pause
  | queue (fileOk decodeOk : Bool)
deriving DecidableEq, Repr

/-- Dispatch one session call, returning the new state and its effect
trace. -/
def runSessionCall : SessionCall → PlayerState → PlayerState × List Effect
  | .play, s => ((play s).2.1, (play s).2.2)
  | .pause, s => ((pause s).2.1, (pause s).2.2)
  | .queue fOk dOk, s =>
    ((queue_audio fOk dOk s).2.1, (queue_audio fOk dOk s).2.2)

/-- Run a sequence of session calls, accumulating the effect trace. -/
def runSession : List SessionCall → PlayerState → PlayerState × List Effect
  | [], s => (s, [])
  | c :: cs, s =>
    let r := runSessionCall c s
    let rest := runSession cs r.1
    (rest.1, r.2 ++ rest.2)

/-! ### Helper lemmas -/

theorem TIOCM_RTS_FLAG_eq : TIOCM_RTS_FLAG = 2 ^ 2 := rfl

/-- `(w & TIOCM_RTS_FLAG) != 0` is exactly "bit 2 of `w` is set". -/
theorem and_flag_iff (w : Nat) :
    (w &&& TIOCM_RTS_FLAG ≠ 0) ↔ w.testBit 2 = true := by
  rw [TIOCM_RTS_FLAG_eq, Nat.and_two_pow]
  cases h : w.testBit 2 <;> simp

/-- Toggling flips bit 2 of the control word. -/
theorem testBit_toggle_self (w : Nat) :
    (toggle_rts_bits w).testBit 2 = !(w.testBit 2) := by
  rw [toggle_rts_bits, TIOCM_RTS_FLAG_eq, Nat.testBit_xor,
    Nat.testBit_two_pow_self]
  cases w.testBit 2 <;> rfl

/-- Toggling leaves every bit other than bit 2 of the control word
unchanged. -/
theorem testBit_toggle_ne (w i : Nat) (h : i ≠ 2) :
    (toggle_rts_bits w).testBit i = w.testBit i := by
  rw [toggle_rts_bits, TIOCM_RTS_FLAG_eq, Nat.testBit_xor,
    Nat.testBit_two_pow_of_ne (fun h2 => h h2.symm)]
  cases w.testBit i <;> rfl

/-- `rts_is_enabled` reads bit 2 of the control word. -/
theorem rts_is_enabled_eq_testBit (s : PlayerState) :
    rts_is_enabled s = s.controlBits.testBit 2 := by
  have hiff := and_flag_iff s.controlBits
  unfold rts_is_enabled
  cases hb : s.controlBits.testBit 2
  · rw [hb] at hiff
    exact decide_eq_false (fun hp => Bool.noConfusion (hiff.mp hp))
  · rw [hb] at hiff
    exact decide_eq_true (hiff.mpr rfl)

/-- `toggle_rts` inverts the observed RTS state. -/
theorem rts_is_enabled_toggle (s : PlayerState) :
    rts_is_enabled (toggle_rts s) = !(rts_is_enabled s) := by
  rw [rts_is_enabled_eq_testBit, rts_is_enabled_eq_testBit]
  exact testBit_toggle_self s.controlBits

/-- `rts_is_enabled` ignores the sink fields. -/
theorem rts_is_enabled_set_sink (s : PlayerState) (p : Bool) (q : Nat) :
    rts_is_enabled { s with sinkPaused := p, sinkQueue := q } =
      rts_is_enabled s := rfl

/-- What a successful construction guarantees about the initial state and
the construction trace. -/
theorem for_devices_ok_inv (enumOk : Bool) (devs : List AudioDevice)
    (sinkOk ttyOk : Bool) (w0 : Nat) (name : String) (s : PlayerState)
    (tr : List Effect)
    (h : for_devices enumOk devs sinkOk ttyOk w0 name = .ok s tr) :
    rts_is_enabled s = false ∧ s.sinkPaused = true ∧ s.sinkQueue = 0 ∧
    (w0 &&& TIOCM_RTS_FLAG ≠ 0 → tr = [.lineWrite (toggle_rts_bits w0)]) ∧
    (w0 &&& TIOCM_RTS_FLAG = 0 → tr = []) := by
  unfold for_devices at h
  split at h
  · exact absurd h (by simp)
  · split at h
    · exact absurd h (by simp)
    · split at h
      · exact absurd h (by simp)
      · split at h
        · exact absurd h (by simp)
        · split at h
          · exact absurd h (by simp)
          · dsimp only at h
            split at h <;> rename_i hrts <;>
              injection h with hs htr <;> subst hs <;> subst htr
            · refine ⟨?_, rfl, rfl, fun _ => rfl, fun h0 => absurd hrts ?_⟩
              · rw [rts_is_enabled_toggle, hrts]; rfl
              · simp [rts_is_enabled, h0]
            · refine ⟨by simpa using hrts, rfl, rfl, fun hne => ?_, fun _ => rfl⟩
              exact absurd hrts (by simp [rts_is_enabled, hne])

/-- One `play`/`pause` call preserves the correspondence
`lineAsserted == sinkPlaying` (with `sinkPlaying = !sinkPaused`). -/
theorem runCall_consistent (c : Call) (s : PlayerState)
    (h : rts_is_enabled s = !s.sinkPaused) :
    rts_is_enabled (runCall c s).2.1 = !(runCall c s).2.1.sinkPaused := by
  cases c
  · show rts_is_enabled (play s).2.1 = !(play s).2.1.sinkPaused
    unfold play
    split
    · exact h
    · rename_i hcond
      simp only [Bool.or_eq_true, Bool.not_eq_true', not_or,
        Bool.not_eq_true, Bool.not_eq_false] at hcond
      show rts_is_enabled (toggle_rts s) = !false
      rw [rts_is_enabled_toggle, hcond.1]
  · show rts_is_enabled (pause s).2.1 = !(pause s).2.1.sinkPaused
    unfold pause
    split
    · exact h
    · rename_i hcond
      simp only [Bool.or_eq_true, Bool.not_eq_true', not_or,
        Bool.not_eq_true, Bool.not_eq_false] at hcond
      show rts_is_enabled (toggle_rts s) = !true
      rw [rts_is_enabled_toggle, hcond.1]

/-- The correspondence is preserved by any `play`/`pause` sequence. -/
theorem runCalls_consistent (cs : List Call) (s : PlayerState)
    (h : rts_is_enabled s = !s.sinkPaused) :
    rts_is_enabled (runCalls cs s) = !(runCalls cs s).sinkPaused := by
  induction cs generalizing s with
  | nil => exact h
  | cons c cs ih => exact ih _ (runCall_consistent c s h)

/-- In the wedged state (line asserted, sink paused) both `play` and
`pause` fail their precondition checks and change nothing. -/
theorem runCall_stuck (c : Call) (s : PlayerState)
    (h1 : rts_is_enabled s = true) (h2 : s.sinkPaused = true) :
    (runCall c s).2.1 = s := by
  cases c
  · show (play s).2.1 = s
    unfold play
    rw [h1]
    rfl
  · show (pause s).2.1 = s
    unfold pause
    rw [h2]
    simp

/-- The wedged state is a fixed point of every `play`/`pause` sequence. -/
theorem runCalls_stuck (cs : List Call) (s : PlayerState)
    (h1 : rts_is_enabled s = true) (h2 : s.sinkPaused = true) :
    runCalls cs s = s := by
  induction cs with
  | nil => rfl
  | cons c cs ih => show runCalls cs (runCall c s).2.1 = s
                    rw [runCall_stuck c s h1 h2, ih]

/-- No public call ever emits the fd-release effect. -/
theorem fdClose_not_in_sessionCall (c : SessionCall) (s : PlayerState) :
    Effect.fdClose ∉ (runSessionCall c s).2 := by
  cases c
  · show Effect.fdClose ∉ (play s).2.2
    unfold play
    split <;> simp
  · show Effect.fdClose ∉ (pause s).2.2
    unfold pause
    split <;> simp
  · rename_i fOk dOk
    show Effect.fdClose ∉ (queue_audio fOk dOk s).2.2
    unfold queue_audio
    split <;> [simp; split <;> simp]

/-- No sequence of public calls ever emits the fd-release effect. -/
theorem fdClose_not_in_session (cs : List SessionCall) (s : PlayerState) :
    Effect.fdClose ∉ (runSession cs s).2 := by
  induction cs generalizing s with
  | nil => simp [runSession]
  | cons c cs ih =>
    show Effect.fdClose ∉ (runSessionCall c s).2 ++ _
    rw [List.mem_append]
    rintro (hmem | hmem)
    · exact fdClose_not_in_sessionCall c s hmem
    · exact ih _ hmem

/-- `play` on a state failing the precondition: error, no mutation, no
effects. -/
theorem play_pos (s : PlayerState)
    (h : (rts_is_enabled s || !s.sinkPaused) = true) :
    play s = (.error .alreadyTransmitting, s, []) := by
  unfold play
  rw [if_pos h]

/-- `play` on a state passing the precondition: toggle RTS on, sleep,
resume the sink. -/
theorem play_neg (s : PlayerState)
    (h : ¬(rts_is_enabled s || !s.sinkPaused) = true) :
    play s = (.ok, { toggle_rts s with sinkPaused := false },
      [.lineWrite (toggle_rts_bits s.controlBits), .sleepMs 250,
        .sinkPlay]) := by
  unfold play
  rw [if_neg h]

/-- `pause` on a state failing the precondition: error, no mutation, no
effects. -/
theorem pause_pos (s : PlayerState)
    (h : (!rts_is_enabled s || s.sinkPaused) = true) :
    pause s = (.error .alreadyPaused, s, []) := by
  unfold pause
  rw [if_pos h]

/-- `pause` on a state passing the precondition: pause the sink, sleep,
toggle RTS off. -/
theorem pause_neg (s : PlayerState)
    (h : ¬(!rts_is_enabled s || s.sinkPaused) = true) :
    pause s = (.ok, { toggle_rts s with sinkPaused := true },
      [.sinkPause, .sleepMs 250,
        .lineWrite (toggle_rts_bits s.controlBits)]) := by
  unfold pause
  rw [if_neg h]

/-! ### Claim theorems -/

/-- C7: for every starting value of the hardware control-bits word, a
successful `toggle_rts` computes and writes back a word in which exactly
the transmit-enable bit (bit 2, `TIOCM_RTS_FLAG = 0x004`) is flipped and
every other bit position is unchanged from the word just read. -/
theorem toggle_flips_exactly_rts_bit (w : Nat) :
    (toggle_rts_bits w).testBit 2 = !(w.testBit 2) ∧
    ∀ i : Nat, i ≠ 2 → (toggle_rts_bits w).testBit i = w.testBit i :=
  ⟨testBit_toggle_self w, fun i hi => testBit_toggle_ne w i hi⟩

/-- Witness for C7: concrete evaluation at control word 5 and bit 0. -/
theorem toggle_flips_exactly_rts_bit_witness :
    (toggle_rts_bits 5).testBit 2 = !((5 : Nat).testBit 2) ∧
    (toggle_rts_bits 5).testBit 0 = (5 : Nat).testBit 0 :=
  ⟨(toggle_flips_exactly_rts_bit 5).1,
   (toggle_flips_exactly_rts_bit 5).2 0 (by decide)⟩

/-- C5: successful construction always returns a player whose control
line is de-asserted, regardless of the pre-existing control word `w0`;
when the line read as asserted during construction, the toggled (cleared)
word was written back before construction returned. -/
theorem construction_deasserts_line (enumOk : Bool)
    (devs : List AudioDevice) (sinkOk ttyOk : Bool) (w0 : Nat)
    (name : String) (s : PlayerState) (tr : List Effect)
    (h : for_devices enumOk devs sinkOk ttyOk w0 name = .ok s tr) :
    rts_is_enabled s = false ∧
    (w0 &&& TIOCM_RTS_FLAG ≠ 0 →
      tr = [.lineWrite (toggle_rts_bits w0)]) :=
  ⟨(for_devices_ok_inv _ _ _ _ _ _ _ _ h).1,
   (for_devices_ok_inv _ _ _ _ _ _ _ _ h).2.2.2.1⟩

/-- Witness for C5: construction over a line whose word reads `4`
(asserted) yields a de-asserted player after writing back word `0`. -/
theorem construction_deasserts_line_witness :
    rts_is_enabled { controlBits := 0, sinkPaused := true, sinkQueue := 0 }
      = false ∧
    [Effect.lineWrite (toggle_rts_bits 4)] =
      [Effect.lineWrite (toggle_rts_bits 4)] := by
  have h := construction_deasserts_line true
    [{ name := some "d", openOk := true }] true true 4 "d"
    { controlBits := 0, sinkPaused := true, sinkQueue := 0 }
    [Effect.lineWrite (toggle_rts_bits 4)] (by decide)
  exact ⟨h.1, h.2 (by decide)⟩

/-- C2: `play` fails with `AlreadyTransmitting` iff, at the time of the
call, the control line is asserted or the sink is not paused; in
particular a second `play` immediately after a successful `play` (no
intervening `pause`) fails with this error. -/
theorem play_already_transmitting_iff (s : PlayerState) :
    ((play s).1 = .error .alreadyTransmitting ↔
      (rts_is_enabled s = true ∨ s.sinkPaused = false)) ∧
    ((play s).1 = .ok →
      (play (play s).2.1).1 = .error .alreadyTransmitting) := by
  by_cases hcond : (rts_is_enabled s || !s.sinkPaused) = true
  · refine ⟨?_, ?_⟩
    · rw [play_pos s hcond]
      simp only [Bool.or_eq_true, Bool.not_eq_true'] at hcond
      exact ⟨fun _ => hcond, fun _ => rfl⟩
    · rw [play_pos s hcond]
      intro hok
      exact absurd hok (by simp)
  · have hcond' := hcond
    simp only [Bool.or_eq_true, Bool.not_eq_true', not_or,
      Bool.not_eq_true, Bool.not_eq_false] at hcond'
    refine ⟨?_, ?_⟩
    · rw [play_neg s hcond]
      refine ⟨fun habs => absurd habs (by simp), fun hor => ?_⟩
      rcases hor with h1 | h1
      · rw [hcond'.1] at h1; exact absurd h1 (by simp)
      · rw [hcond'.2] at h1; exact absurd h1 (by simp)
    · intro _
      rw [play_neg s hcond]
      have hs' : rts_is_enabled
          { toggle_rts s with sinkPaused := false } = true := by
        show rts_is_enabled (toggle_rts s) = true
        rw [rts_is_enabled_toggle, hcond'.1]
        rfl
      rw [play_pos _ (by rw [hs']; rfl)]

/-- Witness for C2: at the idle state (word `0`, sink paused) `play`
succeeds and an immediate second `play` fails with the
already-transmitting error. -/
theorem play_already_transmitting_iff_witness :
    ((play (⟨0, true, 0⟩ : PlayerState)).1 =
        .error .alreadyTransmitting ↔
      (rts_is_enabled (⟨0, true, 0⟩ : PlayerState) = true ∨
        (⟨0, true, 0⟩ : PlayerState).sinkPaused = false)) ∧
    (play (play (⟨0, true, 0⟩ : PlayerState)).2.1).1 =
      .error .alreadyTransmitting := by
  have h := play_already_transmitting_iff (⟨0, true, 0⟩ : PlayerState)
  exact ⟨h.1, h.2 (by decide)⟩

/-- C3: on a successful `play`, the effects are, in this exact order:
write the control word with the RTS bit asserted, sleep 250 ms, and only
then resume the sink; in particular the sink is never resumed before the
line write. -/
theorem play_effect_order (s : PlayerState) (h : (play s).1 = .ok) :
    (play s).2.2 = [.lineWrite (toggle_rts_bits s.controlBits),
      .sleepMs 250, .sinkPlay] ∧
    toggle_rts_bits s.controlBits &&& TIOCM_RTS_FLAG ≠ 0 := by
  by_cases hcond : (rts_is_enabled s || !s.sinkPaused) = true
  · rw [play_pos s hcond] at h
    exact absurd h (by simp)
  · have hcond' := hcond
    simp only [Bool.or_eq_true, Bool.not_eq_true', not_or,
      Bool.not_eq_true, Bool.not_eq_false] at hcond'
    refine ⟨by rw [play_neg s hcond], ?_⟩
    rw [and_flag_iff, testBit_toggle_self]
    have he := rts_is_enabled_eq_testBit s
    rw [hcond'.1] at he
    rw [← he]
    rfl

/-- Witness for C3: concrete successful `play` from the idle state. -/
theorem play_effect_order_witness :
    (play (⟨0, true, 0⟩ : PlayerState)).2.2 =
      [.lineWrite (toggle_rts_bits 0), .sleepMs 250, .sinkPlay] ∧
    toggle_rts_bits 0 &&& TIOCM_RTS_FLAG ≠ 0 :=
  play_effect_order (⟨0, true, 0⟩ : PlayerState) (by decide)

/-- C4: `pause` fails with `AlreadyPaused` when the control line is
de-asserted or the sink is already paused (leaving everything untouched);
otherwise it succeeds and its effects are, in this exact order: pause the
sink, sleep 250 ms, and only then write the control word with the RTS bit
cleared. -/
theorem pause_precondition_and_order (s : PlayerState) :
    ((rts_is_enabled s = false ∨ s.sinkPaused = true) →
      pause s = (.error .alreadyPaused, s, [])) ∧
    (rts_is_enabled s = true → s.sinkPaused = false →
      (pause s).1 = .ok ∧
      (pause s).2.2 = [.sinkPause, .sleepMs 250,
        .lineWrite (toggle_rts_bits s.controlBits)] ∧
      toggle_rts_bits s.controlBits &&& TIOCM_RTS_FLAG = 0) := by
  refine ⟨fun hor => ?_, fun hrts hpaused => ?_⟩
  · apply pause_pos
    rcases hor with h1 | h1
    · rw [h1]; rfl
    · rw [h1]; simp
  · have hcond : ¬(!rts_is_enabled s || s.sinkPaused) = true := by
      rw [hrts, hpaused]
      simp
    rw [pause_neg s hcond]
    refine ⟨rfl, rfl, ?_⟩
    have hne : ¬(toggle_rts_bits s.controlBits &&& TIOCM_RTS_FLAG ≠ 0) := by
      rw [and_flag_iff, testBit_toggle_self]
      have he := rts_is_enabled_eq_testBit s
      rw [hrts] at he
      rw [← he]
      simp
    exact not_ne_iff.mp hne

/-- Witness for C4: concrete `pause` from the transmitting state (word
`4`, sink playing) and a concrete failing `pause` from the idle state. -/
theorem pause_precondition_and_order_witness :
    pause (⟨0, true, 0⟩ : PlayerState) =
      (.error .alreadyPaused, (⟨0, true, 0⟩ : PlayerState), []) ∧
    (pause (⟨4, false, 1⟩ : PlayerState)).1 = .ok ∧
    (pause (⟨4, false, 1⟩ : PlayerState)).2.2 =
      [.sinkPause, .sleepMs 250, .lineWrite (toggle_rts_bits 4)] ∧
    toggle_rts_bits 4 &&& TIOCM_RTS_FLAG = 0 := by
  have h1 := (pause_precondition_and_order (⟨0, true, 0⟩ : PlayerState)).1
    (Or.inl (by decide))
  have h2 := (pause_precondition_and_order (⟨4, false, 1⟩ : PlayerState)).2
    (by decide) (by decide)
  exact ⟨h1, h2.1, h2.2.1, h2.2.2⟩

/-- C10: when `play` or `pause` fails its precondition check, neither the
control line state nor the sink state has been modified: the returned
state equals the argument and no side effect was performed. -/
theorem failed_precondition_no_mutation (s : PlayerState) :
    (∀ e, (play s).1 = .error e →
      (play s).2.1 = s ∧ (play s).2.2 = []) ∧
    (∀ e, (pause s).1 = .error e →
      (pause s).2.1 = s ∧ (pause s).2.2 = []) := by
  constructor
  · intro e he
    by_cases hcond : (rts_is_enabled s || !s.sinkPaused) = true
    · rw [play_pos s hcond]
      exact ⟨rfl, rfl⟩
    · rw [play_neg s hcond] at he
      exact absurd he (by simp)
  · intro e he
    by_cases hcond : (!rts_is_enabled s || s.sinkPaused) = true
    · rw [pause_pos s hcond]
      exact ⟨rfl, rfl⟩
    · rw [pause_neg s hcond] at he
      exact absurd he (by simp)

/-- Witness for C10: on state (word `4`, sink paused) both `play` and
`pause` fail, and both leave the state untouched with no effects. -/
theorem failed_precondition_no_mutation_witness :
    ((play (⟨4, true, 0⟩ : PlayerState)).2.1 = (⟨4, true, 0⟩ : PlayerState) ∧
      (play (⟨4, true, 0⟩ : PlayerState)).2.2 = []) ∧
    ((pause (⟨4, true, 0⟩ : PlayerState)).2.1 = (⟨4, true, 0⟩ : PlayerState) ∧
      (pause (⟨4, true, 0⟩ : PlayerState)).2.2 = []) := by
  have h := failed_precondition_no_mutation (⟨4, true, 0⟩ : PlayerState)
  exact ⟨h.1 .alreadyTransmitting (by decide), h.2 .alreadyPaused (by decide)⟩

/-- C1: for every sequence of `play`/`pause` calls (no interleaved
`queue_audio`) on a successfully constructed player, the control line's
asserted state observed after the last call settles (the post-call state,
i.e. more than 250 ms after the call) equals the sink's playing state
(`!sinkPaused`) observed at the same instant. -/
theorem line_matches_sink_after_play_pause_sequences (enumOk : Bool)
    (devs : List AudioDevice) (sinkOk ttyOk : Bool) (w0 : Nat)
    (name : String) (s0 : PlayerState) (tr0 : List Effect)
    (h : for_devices enumOk devs sinkOk ttyOk w0 name = .ok s0 tr0)
    (cs : List Call) :
    rts_is_enabled (runCalls cs s0) = !(runCalls cs s0).sinkPaused := by
  have hinv := for_devices_ok_inv _ _ _ _ _ _ _ _ h
  refine runCalls_consistent cs s0 ?_
  rw [hinv.1, hinv.2.1]
  rfl

/-- Witness for C1: a concrete construction followed by a successful
`play` then `pause`. -/
theorem line_matches_sink_witness :
    rts_is_enabled (runCalls [Call.play, Call.pause]
        (⟨0, true, 0⟩ : PlayerState)) =
      !(runCalls [Call.play, Call.pause]
        (⟨0, true, 0⟩ : PlayerState)).sinkPaused :=
  line_matches_sink_after_play_pause_sequences true
    [{ name := some "d", openOk := true }] true true 0 "d"
    (⟨0, true, 0⟩ : PlayerState) [] (by decide) [Call.play, Call.pause]

/-- C9: calling `queue_audio` while transmitting (line asserted, sink
playing) leaves the system in the persistent wedged state
`lineAsserted = true, sinkPaused = true`: both `play` and `pause` then
fail their precondition checks, and no `play`/`pause` sequence ever
changes the state again, so the line is never de-asserted through those
operations. -/
theorem queue_during_transmit_wedges (s : PlayerState)
    (hline : rts_is_enabled s = true) (hplay : s.sinkPaused = false) :
    rts_is_enabled (queue_audio true true s).2.1 = true ∧
    (queue_audio true true s).2.1.sinkPaused = true ∧
    (play (queue_audio true true s).2.1).1 =
      .error .alreadyTransmitting ∧
    (pause (queue_audio true true s).2.1).1 = .error .alreadyPaused ∧
    ∀ cs : List Call, runCalls cs (queue_audio true true s).2.1 =
      (queue_audio true true s).2.1 := by
  have e1 : rts_is_enabled (queue_audio true true s).2.1 =
      rts_is_enabled s := rfl
  have e2 : (queue_audio true true s).2.1.sinkPaused = true := rfl
  rw [e1]
  refine ⟨hline, e2, ?_, ?_, ?_⟩
  · rw [play_pos _ (by rw [e1, hline]; rfl)]
  · rw [pause_pos _ (by rw [e2]; simp)]
  · intro cs
    exact runCalls_stuck cs _ (by rw [e1]; exact hline) e2

/-- Witness for C9: queueing while transmitting from state (word `4`,
sink playing) wedges the player; a concrete `pause`-then-`play` sequence
changes nothing. -/
theorem queue_during_transmit_wedges_witness :
    rts_is_enabled (queue_audio true true (⟨4, false, 0⟩ : PlayerState)).2.1
      = true ∧
    (queue_audio true true (⟨4, false, 0⟩ : PlayerState)).2.1.sinkPaused
      = true ∧
    (play (queue_audio true true (⟨4, false, 0⟩ : PlayerState)).2.1).1 =
      .error .alreadyTransmitting ∧
    (pause (queue_audio true true (⟨4, false, 0⟩ : PlayerState)).2.1).1 =
      .error .alreadyPaused ∧
    runCalls [Call.pause, Call.play]
        (queue_audio true true (⟨4, false, 0⟩ : PlayerState)).2.1 =
      (queue_audio true true (⟨4, false, 0⟩ : PlayerState)).2.1 := by
  have h := queue_during_transmit_wedges (⟨4, false, 0⟩ : PlayerState)
    (by decide) (by decide)
  exact ⟨h.1, h.2.1, h.2.2.1, h.2.2.2.1, h.2.2.2.2 [Call.pause, Call.play]⟩

/-- C8: over a whole lifetime of a successfully constructed player
(construction trace, then any sequence of public calls, then drop), the
fd-release effect occurs exactly once — only the `Drop` impl ever issues
it — and a failing close makes the drop panic (terminate the process)
rather than return or ignore the failure. -/
theorem teardown_closes_line_exactly_once (enumOk : Bool)
    (devs : List AudioDevice) (sinkOk ttyOk : Bool) (w0 : Nat)
    (name : String) (s0 : PlayerState) (tr0 : List Effect)
    (cs : List SessionCall) (closeOk : Bool)
    (h : for_devices enumOk devs sinkOk ttyOk w0 name = .ok s0 tr0) :
    (tr0 ++ (runSession cs s0).2 ++
      (drop_player closeOk).1).count Effect.fdClose = 1 ∧
    (closeOk = false → (drop_player closeOk).2 = true) := by
  constructor
  · rw [List.count_append, List.count_append]
    have hinv := for_devices_ok_inv _ _ _ _ _ _ _ _ h
    have h0 : tr0.count Effect.fdClose = 0 := by
      by_cases hw : w0 &&& TIOCM_RTS_FLAG ≠ 0
      · rw [hinv.2.2.2.1 hw]
        rfl
      · rw [hinv.2.2.2.2 (not_ne_iff.mp hw)]
        rfl
    have h1 : ((runSession cs s0).2).count Effect.fdClose = 0 :=
      List.count_eq_zero.mpr (fdClose_not_in_session cs s0)
    rw [h0, h1]
    rfl
  · intro hc
    rw [hc]
    rfl

/-- Witness for C8: a concrete lifetime — construction from word `0`, a
`queue` then `play` then `pause`, then a failing drop — closes the fd
once and panics. -/
theorem teardown_closes_line_exactly_once_witness :
    (([] : List Effect) ++
      (runSession [SessionCall.queue true true, SessionCall.play,
        SessionCall.pause] (⟨0, true, 0⟩ : PlayerState)).2 ++
      (drop_player false).1).count Effect.fdClose = 1 ∧
    (drop_player false).2 = true := by
  have h := teardown_closes_line_exactly_once true
    [{ name := some "d", openOk := true }] true true 0 "d"
    (⟨0, true, 0⟩ : PlayerState) []
    [SessionCall.queue true true, SessionCall.play, SessionCall.pause]
    false (by decide)
  exact ⟨h.1, h.2 rfl⟩

/-- C6 counterexample: with the device `"front:CARD=Device,DEV=0"`
present but not openable for output, construction panics (the source
calls `.unwrap()` on `OutputStream::try_from_device`) instead of
returning `StreamInitError`, so the claim that this failure is "a
returned error, not a crash" is false. -/
theorem stream_open_failure_panics :
    for_devices true
      [{ name := some "front:CARD=Device,DEV=0", openOk := false }]
      true true 0 "front:CARD=Device,DEV=0" = .panic ∧
    for_devices true
      [{ name := some "front:CARD=Device,DEV=0", openOk := false }]
      true true 0 "front:CARD=Device,DEV=0" ≠ .error .streamInit := by
  constructor
  · rfl
  · intro h
    exact absurd h (by decide)

/-- C6 (amended): with device enumeration succeeding, construction fails
with `DeviceNotFound` carrying the exact requested name when no
enumerated device's name equals it; when the matched device cannot be
opened for output the process panics (unwrap) instead of returning an
error; and `StreamInit` is the returned error when creating the sink on
the opened stream fails. -/
theorem open_engine_error_cases (devs : List AudioDevice)
    (sinkOk ttyOk : Bool) (w0 : Nat) (name : String) :
    (findDevice devs name = none →
      for_devices true devs sinkOk ttyOk w0 name =
        .error (.deviceNotFound name)) ∧
    (∀ dev, findDevice devs name = some dev → dev.openOk = false →
      for_devices true devs sinkOk ttyOk w0 name = .panic) ∧
    (∀ dev, findDevice devs name = some dev → dev.openOk = true →
      sinkOk = false →
      for_devices true devs sinkOk ttyOk w0 name =
        .error .streamInit) := by
  refine ⟨fun hnone => ?_, fun dev hsome hopen => ?_,
    fun dev hsome hopen hsink => ?_⟩
  · simp [for_devices, hnone]
  · simp [for_devices, hsome, hopen]
  · simp [for_devices, hsome, hopen, hsink]

/-- Witness for C6 (amended): the three failure shapes at concrete
inputs. -/
theorem open_engine_error_cases_witness :
    for_devices true [] true true 0 "front:CARD=Device,DEV=0" =
      .error (.deviceNotFound "front:CARD=Device,DEV=0") ∧
    for_devices true [{ name := some "x", openOk := false }] true true 0
      "x" = .panic ∧
    for_devices true [{ name := some "x", openOk := true }] false true 0
      "x" = .error .streamInit := by
  refine ⟨(open_engine_error_cases [] true true 0
      "front:CARD=Device,DEV=0").1 rfl, ?_, ?_⟩
  · exact (open_engine_error_cases
      [{ name := some "x", openOk := false }] true true 0 "x").2.1
      { name := some "x", openOk := false } (by decide) rfl
  · exact (open_engine_error_cases
      [{ name := some "x", openOk := true }] false true 0 "x").2.2
      { name := some "x", openOk := true } (by decide) rfl rfl

end RPlayer
